import Mathlib

/-!
Shallow embedding of the LTM (long-term-memory) lifecycle core of the
TINS-MCP repository: models `Memory`, `Conversation`, `Persona`,
`DreamstateUpdate`, the `MemoryProcessor`, `PersonaEvolver` and
`AwakeningService` services, and the `LTMSQL` lifecycle controller.

Modelling conventions:
- JS `Date` timestamps are `Nat` milliseconds since the Unix epoch;
  `new Date()` reads the controller state's `now` field.
- JS numbers entering arithmetic (trait axes, importance, durations) are
  modelled as `ℚ`; no claim checked here depends on binary floating-point
  rounding.
- `uuidv4()` fresh ids are modelled by a `nextId : Nat` counter supplied by
  the controller state.
- The SQLite database is a record of in-memory lists; `INSERT OR REPLACE`
  is an upsert keyed on the row id, and `SELECT ... ORDER BY` clauses are
  modelled by a stable insertion sort (JS `Array.prototype.sort` is also
  stable).
- JS string `.length` counts UTF-16 units; Lean counts characters. They
  agree on the ASCII data handled here.
-/

namespace LTM

/-- JS `undefined`-able string argument; `jsShow` is how a template literal
renders it. -/
def jsShow : Option String → String
  | some s => s
  | none => "undefined"

/-- JS truthiness of an optional string: `undefined` and `""` are falsy. -/
def jsFalsyStr : Option String → Bool
  | none => true
  | some s => s = ""

/-- Substring test on character lists (SQL `LIKE '%sub%'` body, JS
`String.includes`). -/
def containsSub (hay sub : List Char) : Bool :=
  hay.tails.any (fun t => sub.isPrefixOf t)

/-- JS `String.prototype.includes`. -/
def strIncludes (hay sub : String) : Bool :=
  containsSub hay.data sub.data

/-- SQLite `LIKE` is case-insensitive on ASCII letters. -/
def likeMatch (hay sub : String) : Bool :=
  containsSub (hay.data.map Char.toLower) (sub.data.map Char.toLower)

/-- JS `String.prototype.lastIndexOf` for a single-character needle,
generalised to a predicate; returns `-1` when there is no occurrence. -/
def lastIndexOfP (p : Char → Bool) : List Char → Int
  | [] => -1
  | a :: l =>
    let r := lastIndexOfP p l
    if 0 ≤ r then r + 1 else if p a then 0 else -1

/-- First-occurrence-wins deduplication keyed by `key`, carrying the set of
keys already seen (JS loop over a `Set` of seen keys). -/
def dedupByAux [DecidableEq β] (key : α → β) (seen : List β) : List α → List α
  | [] => []
  | a :: l =>
    if key a ∈ seen then dedupByAux key seen l
    else a :: dedupByAux key (key a :: seen) l

/-- First-occurrence-wins deduplication (JS `new Set(...)` iteration
order). -/
def dedupBy [DecidableEq β] (key : α → β) (l : List α) : List α :=
  dedupByAux key [] l

/-- Civil date from a day count since 1970-01-01 (proleptic Gregorian),
restricted to nonnegative day counts: returns (year, month, day). -/
def civilFromDays (z0 : Nat) : Nat × Nat × Nat :=
  let z := z0 + 719468
  let era := z / 146097
  let doe := z % 146097
  let yoe := (doe - doe / 1460 + doe / 36524 - doe / 146096) / 365
  let y := yoe + era * 400
  let doy := doe - (365 * yoe + yoe / 4 - yoe / 100)
  let mp := (5 * doy + 2) / 153
  let d := doy - (153 * mp + 2) / 5 + 1
  let m := if mp < 10 then mp + 3 else mp - 9
  (if m ≤ 2 then y + 1 else y, m, d)

def pad2 (n : Nat) : String :=
  if n < 10 then "0" ++ toString n else toString n

/-- The `YYYY-MM-DD` prefix of `Date.prototype.toISOString` for a
millisecond timestamp. -/
def isoDate (ms : Nat) : String :=
  let days := ms / 86400000
  let ymd := civilFromDays days
  toString ymd.1 ++ "-" ++ pad2 ymd.2.1 ++ "-" ++ pad2 ymd.2.2

/-- JS `Number.prototype.toFixed(1)` on a rational (round to nearest tenth,
halves up). -/
def toFixed1 (q : ℚ) : String :=
  let n : Int := round (q * 10)
  let sign := if n < 0 then "-" else ""
  let m := n.natAbs
  sign ++ toString (m / 10) ++ "." ++ toString (m % 10)

/-- JS `a || b` for strings (empty string is falsy). -/
def orElseStr (a b : String) : String :=
  if a = "" then b else a

/-! ## Data model (src/src/models) -/

/-- A message appended by `Conversation.addMessage(role, content)`; role and
content are optional because the JS caller can omit them (`undefined`). -/
structure Message where
  role : Option String
  content : Option String
  timestamp : Nat
deriving Repr, DecidableEq

/-- `Conversation` (src/src/models/Conversation.js). -/
structure Conversation where
  conversationId : Nat
  startTime : Nat
  endTime : Option Nat
  participants : List String
  rawText : String
  context : String
  messages : List Message
deriving Repr, DecidableEq

/-- `Conversation.prototype.addMessage`: push the message and extend
`rawText` with a `role: content` line (template literal renders a missing
argument as "undefined"). -/
def Conversation.addMessage (c : Conversation) (role content : Option String)
    (now : Nat) : Conversation :=
  { c with
    messages := c.messages ++ [⟨role, content, now⟩]
    rawText := c.rawText ++ jsShow role ++ ": " ++ jsShow content ++ "\n" }

/-- `Conversation.prototype.end`: stamp the end time. -/
def Conversation.endConv (c : Conversation) (now : Nat) : Conversation :=
  { c with endTime := some now }

/-- `Conversation.prototype.getFullText`. -/
def Conversation.getFullText (c : Conversation) : String :=
  c.rawText

/-- `Conversation.prototype.getDuration`: minutes between start and end, or
null while the conversation is open. -/
def Conversation.getDuration (c : Conversation) : Option ℚ :=
  match c.endTime with
  | none => none
  | some e => some (((e : ℚ) - (c.startTime : ℚ)) / (1000 * 60))

/-- `Memory` (src/src/models/Memory.js). -/
structure Memory where
  memoryId : Nat
  conversationId : Option Nat
  summary : String
  importance : ℚ
  timestamp : Nat
  tags : List String
deriving Repr, DecidableEq

/-- The `Memory` constructor with an explicit (non-null) id: clamps
importance into [1, 10]. -/
def Memory.make (memoryId : Nat) (conversationId : Option Nat)
    (summary : String) (importance : ℚ) (timestamp : Nat)
    (tags : List String) : Memory :=
  ⟨memoryId, conversationId, summary, min (max importance 1) 10, timestamp, tags⟩

/-- `Memory.prototype.updateImportance`: clamp the new value into [1, 10]. -/
def Memory.updateImportance (m : Memory) (newImportance : ℚ) : Memory :=
  { m with importance := min (max newImportance 1) 10 }

/-- `JSON.stringify` of a tag list, as stored in the `memories.tags`
column (tags are assumed free of characters needing JSON escapes). -/
def serializeTags (tags : List String) : String :=
  "[" ++ String.intercalate "," (tags.map (fun t => "\"" ++ t ++ "\"")) ++ "]"

/-- Result ordering used by `searchByTags` and `getImportant`: importance
descending, then timestamp descending. -/
def memOrder (a b : Memory) : Prop :=
  b.importance < a.importance ∨
    (a.importance = b.importance ∧ b.timestamp ≤ a.timestamp)

instance : DecidableRel memOrder := fun a b => by
  unfold memOrder; infer_instance

instance : IsTotal Memory memOrder where
  total a b := by
    unfold memOrder
    rcases lt_trichotomy a.importance b.importance with h | h | h
    · exact Or.inr (Or.inl h)
    · rcases Nat.le_total b.timestamp a.timestamp with ht | ht
      · exact Or.inl (Or.inr ⟨h, ht⟩)
      · exact Or.inr (Or.inr ⟨h.symm, ht⟩)
    · exact Or.inl (Or.inl h)

instance : IsTrans Memory memOrder where
  trans a b c hab hbc := by
    unfold memOrder at *
    rcases hab with h1 | ⟨h1, t1⟩
    · rcases hbc with h2 | ⟨h2, t2⟩
      · exact Or.inl (h2.trans h1)
      · exact Or.inl (h2 ▸ h1)
    · rcases hbc with h2 | ⟨h2, t2⟩
      · exact Or.inl (h1 ▸ h2)
      · exact Or.inr ⟨h1.trans h2, t2.trans t1⟩

/-- Recency ordering: timestamp descending (`ORDER BY timestamp DESC`). -/
def tsOrder (a b : Memory) : Prop := b.timestamp ≤ a.timestamp

instance : DecidableRel tsOrder := fun a b => by
  unfold tsOrder; infer_instance

instance : IsTotal Memory tsOrder := ⟨fun a b => Nat.le_total b.timestamp a.timestamp⟩

instance : IsTrans Memory tsOrder := ⟨fun _ _ _ h1 h2 => h2.trans h1⟩

/-- One `Memory` row reconstructed by `new Memory(row...)`: the constructor
re-clamps the stored importance and keeps the parsed tag list. -/
def rowToMemory (m : Memory) : Memory :=
  Memory.make m.memoryId m.conversationId m.summary m.importance m.timestamp m.tags

/-- `Memory.getRecent`: `ORDER BY timestamp DESC LIMIT ?` over the memory
rows, rebuilt through the constructor. -/
def getRecent (memories : List Memory) (limit : Nat) : List Memory :=
  ((memories.insertionSort tsOrder).take limit).map rowToMemory

/-- `Memory.getImportant`: filter by threshold, order by importance then
timestamp descending, limit. -/
def getImportant (memories : List Memory) (threshold : ℚ) (limit : Nat) :
    List Memory :=
  (((memories.filter (fun m => threshold ≤ m.importance)).insertionSort memOrder).take limit).map rowToMemory

/-- The `tagMatches` accumulation in `Memory.searchByTags`: for each
queried tag, the rows whose serialized tag column LIKE-matches it,
concatenated in query order. -/
def tagMatchesFor (memories : List Memory) (tags : List String) : List Memory :=
  tags.flatMap (fun tag =>
    memories.filter (fun m => likeMatch (serializeTags m.tags) tag))

/-- `Memory.searchByTags`: collect `tagMatches`, deduplicate by id keeping
first occurrences, sort by importance then timestamp descending, truncate,
and rebuild `Memory` objects. -/
def searchByTags (memories : List Memory) (tags : List String) (limit : Nat) :
    List Memory :=
  let tagMatches := tagMatchesFor memories tags
  let uniqueMemories := dedupBy Memory.memoryId tagMatches
  let sorted := uniqueMemories.insertionSort memOrder
  (sorted.take limit).map rowToMemory

/-! ## Persona and DreamstateUpdate (src/src/models) -/

/-- The trait axes of the default persona; JS stores them as an object, the
evolver reads these named keys. -/
structure Traits where
  openness : ℚ
  conscientiousness : ℚ
  extraversion : ℚ
  agreeableness : ℚ
  neuroticism : ℚ
deriving Repr, DecidableEq

structure Values where
  honesty : ℚ
  helpfulness : ℚ
  knowledge : ℚ
  efficiency : ℚ
deriving Repr, DecidableEq

structure Prefs where
  communicationStyle : String
  responseFormat : String
  interactionPreference : String
deriving Repr, DecidableEq

/-- `Persona` (src/src/models/Persona.js). -/
structure Persona where
  personaId : Nat
  traits : Traits
  values : Values
  preferences : Prefs
  biography : String
  lastUpdated : Nat
deriving Repr, DecidableEq

/-- Partial trait object produced by `identifyPersonaChanges` (only these
keys are ever written). -/
structure TraitChanges where
  conscientiousness : Option ℚ := none
  neuroticism : Option ℚ := none
  agreeableness : Option ℚ := none
deriving Repr, DecidableEq

structure ValueChanges where
  helpfulness : Option ℚ := none
deriving Repr, DecidableEq

/-- Object-spread merge `{...traits, ...newTraits}` restricted to the keys
the evolver can produce. -/
def Traits.merge (t : Traits) (c : TraitChanges) : Traits :=
  { t with
    conscientiousness := c.conscientiousness.getD t.conscientiousness
    neuroticism := c.neuroticism.getD t.neuroticism
    agreeableness := c.agreeableness.getD t.agreeableness }

def Values.merge (v : Values) (c : ValueChanges) : Values :=
  { v with helpfulness := c.helpfulness.getD v.helpfulness }

/-- `Persona.prototype.updateTraits`. -/
def Persona.updateTraits (p : Persona) (c : TraitChanges) (now : Nat) : Persona :=
  { p with traits := p.traits.merge c, lastUpdated := now }

/-- `Persona.prototype.updateValues`. -/
def Persona.updateValues (p : Persona) (c : ValueChanges) (now : Nat) : Persona :=
  { p with values := p.values.merge c, lastUpdated := now }

/-- `Persona.prototype.updatePreferences`; the evolver only ever passes an
empty preference-change object, so the merge is a no-op beyond
`lastUpdated`. -/
def Persona.updatePreferences (p : Persona) (now : Nat) : Persona :=
  { p with lastUpdated := now }

/-- `Persona.prototype.updateBiography`. -/
def Persona.updateBiography (p : Persona) (b : String) (now : Nat) : Persona :=
  { p with biography := b, lastUpdated := now }

/-- The persona created by `Persona.createDefault`. -/
def defaultPersona (personaId now : Nat) : Persona :=
  { personaId := personaId
    traits :=
      { openness := 7/10, conscientiousness := 8/10, extraversion := 6/10
        agreeableness := 75/100, neuroticism := 4/10 }
    values :=
      { honesty := 9/10, helpfulness := 85/100, knowledge := 8/10
        efficiency := 75/100 }
    preferences :=
      { communicationStyle := "clear and concise"
        responseFormat := "structured"
        interactionPreference := "friendly professional" }
    biography := "I am Claude 3.7, an AI assistant designed to be helpful, harmless, and honest. I value clarity, accuracy, and providing useful information tailored to users\x27 needs."
    lastUpdated := now }

/-- Snapshot `{traits, values, preferences, biography}` stored in a
DreamstateUpdate. -/
structure PersonaState where
  traits : Traits
  values : Values
  preferences : Prefs
  biography : String
deriving Repr, DecidableEq

def Persona.snapshot (p : Persona) : PersonaState :=
  ⟨p.traits, p.values, p.preferences, p.biography⟩

/-- `DreamstateUpdate` (src model). -/
structure DreamstateUpdate where
  updateId : Nat
  personaId : Nat
  description : String
  justification : String
  previousState : PersonaState
  newState : PersonaState
  timestamp : Nat
deriving Repr, DecidableEq

structure FieldDiffQ where
  previous : ℚ
  new : ℚ
deriving Repr, DecidableEq

structure FieldDiffS where
  previous : String
  new : String
deriving Repr, DecidableEq

structure TraitsDiff where
  openness : Option FieldDiffQ
  conscientiousness : Option FieldDiffQ
  extraversion : Option FieldDiffQ
  agreeableness : Option FieldDiffQ
  neuroticism : Option FieldDiffQ
deriving Repr, DecidableEq

structure ValuesDiff where
  honesty : Option FieldDiffQ
  helpfulness : Option FieldDiffQ
  knowledge : Option FieldDiffQ
  efficiency : Option FieldDiffQ
deriving Repr, DecidableEq

structure PrefsDiff where
  communicationStyle : Option FieldDiffS
  responseFormat : Option FieldDiffS
  interactionPreference : Option FieldDiffS
deriving Repr, DecidableEq

structure StateDiff where
  traits : TraitsDiff
  values : ValuesDiff
  preferences : PrefsDiff
  biography : Option FieldDiffS
deriving Repr, DecidableEq

def diffQ (a b : ℚ) : Option FieldDiffQ :=
  if a ≠ b then some ⟨a, b⟩ else none

def diffS (a b : String) : Option FieldDiffS :=
  if a ≠ b then some ⟨a, b⟩ else none

/-- `DreamstateUpdate.prototype.getDiff`: per-key diff of the two
snapshots, omitting unchanged keys. -/
def DreamstateUpdate.getDiff (u : DreamstateUpdate) : StateDiff :=
  { traits :=
      { openness := diffQ u.previousState.traits.openness u.newState.traits.openness
        conscientiousness := diffQ u.previousState.traits.conscientiousness u.newState.traits.conscientiousness
        extraversion := diffQ u.previousState.traits.extraversion u.newState.traits.extraversion
        agreeableness := diffQ u.previousState.traits.agreeableness u.newState.traits.agreeableness
        neuroticism := diffQ u.previousState.traits.neuroticism u.newState.traits.neuroticism }
    values :=
      { honesty := diffQ u.previousState.values.honesty u.newState.values.honesty
        helpfulness := diffQ u.previousState.values.helpfulness u.newState.values.helpfulness
        knowledge := diffQ u.previousState.values.knowledge u.newState.values.knowledge
        efficiency := diffQ u.previousState.values.efficiency u.newState.values.efficiency }
    preferences :=
      { communicationStyle := diffS u.previousState.preferences.communicationStyle u.newState.preferences.communicationStyle
        responseFormat := diffS u.previousState.preferences.responseFormat u.newState.preferences.responseFormat
        interactionPreference := diffS u.previousState.preferences.interactionPreference u.newState.preferences.interactionPreference }
    biography := diffS u.previousState.biography u.newState.biography }

/-- Ordering for `dreamstate_updates ORDER BY timestamp DESC`. -/
def updOrder (a b : DreamstateUpdate) : Prop := b.timestamp ≤ a.timestamp

instance : DecidableRel updOrder := fun a b => by
  unfold updOrder; infer_instance

instance : IsTotal DreamstateUpdate updOrder :=
  ⟨fun a b => Nat.le_total b.timestamp a.timestamp⟩

instance : IsTrans DreamstateUpdate updOrder := ⟨fun _ _ _ h1 h2 => h2.trans h1⟩

/-- `DreamstateUpdate.getByPersona`. -/
def getByPersona (updates : List DreamstateUpdate) (personaId : Nat)
    (limit : Nat) : List DreamstateUpdate :=
  ((updates.filter (fun u => u.personaId = personaId)).insertionSort updOrder).take limit

/-! ## Database state (src/src/utils/db.js tables) -/

/-- The four SQLite tables as in-memory lists of rows. -/
structure DB where
  personas : List Persona
  conversations : List Conversation
  memories : List Memory
  updates : List DreamstateUpdate
deriving Repr, DecidableEq

/-- `INSERT OR REPLACE` keyed on the row id. -/
def upsertBy [DecidableEq β] (key : α → β) (x : α) (l : List α) : List α :=
  if l.any (fun y => key y = key x) then
    l.map (fun y => if key y = key x then x else y)
  else l ++ [x]

def saveMemory (m : Memory) (db : DB) : DB :=
  { db with memories := upsertBy Memory.memoryId m db.memories }

def saveConversation (c : Conversation) (db : DB) : DB :=
  { db with conversations := upsertBy Conversation.conversationId c db.conversations }

def savePersona (p : Persona) (db : DB) : DB :=
  { db with personas := upsertBy Persona.personaId p db.personas }

def saveUpdate (u : DreamstateUpdate) (db : DB) : DB :=
  { db with updates := upsertBy DreamstateUpdate.updateId u db.updates }

/-- Ordering for `persona ORDER BY last_updated DESC`. -/
def personaOrder (a b : Persona) : Prop := b.lastUpdated ≤ a.lastUpdated

instance : DecidableRel personaOrder := fun a b => by
  unfold personaOrder; infer_instance

instance : IsTotal Persona personaOrder :=
  ⟨fun a b => Nat.le_total b.lastUpdated a.lastUpdated⟩

instance : IsTrans Persona personaOrder := ⟨fun _ _ _ h1 h2 => h2.trans h1⟩

/-- `Persona.loadMostRecent`. -/
def loadMostRecent (db : DB) : Option Persona :=
  (db.personas.insertionSort personaOrder).head?

/-- `Persona.ensureExists`: load the most recent persona or create and save
the default one. -/
def ensureExists (db : DB) (now freshId : Nat) : Persona × DB :=
  match loadMostRecent db with
  | some p => (p, db)
  | none =>
    let p := defaultPersona freshId now
    (p, savePersona p db)

/-! ## MemoryProcessor (src/src/services/MemoryProcessor.js) -/

/-- The metadata summary built when the transcript is empty: participants
and, when truthy (present and nonzero), the duration. -/
def metadataSummary (c : Conversation) : String :=
  let participantsStr := String.intercalate ", " c.participants
  let base := "Conversation with " ++ participantsStr
  match c.getDuration with
  | some d => if d ≠ 0 then base ++ " lasting " ++ toFixed1 d ++ " minutes" else base
  | none => base

/-- `MemoryProcessor.generateSummary`: take the first
`min(maxLength, length)` characters; if that truncates, cut back to the
last space (`lastIndexOf(' ')`, with `substring` clamping `-1` to `0`) and
append `"..."`; an empty transcript falls back to the metadata summary. -/
def generateSummary (c : Conversation) (maxLength : Nat) : String :=
  let fullText := c.getFullText.data
  if 0 < fullText.length then
    let textForSummary := fullText.take (min maxLength fullText.length)
    if textForSummary.length < fullText.length then
      String.mk (textForSummary.take
        (lastIndexOfP (fun ch => ch == ' ') textForSummary).toNat) ++ "..."
    else
      String.mk textForSummary
  else
    metadataSummary c

/-- `MemoryProcessor.calculateImportance`: start at 5; if the duration is
truthy add `min(2, floor(duration / 10))`; +1 for more than 2 participants;
+1 for a raw transcript longer than 1000 characters; clamp to [1, 10]. -/
def calculateImportance (c : Conversation) : Int :=
  let importance : Int := 5
  let importance :=
    match c.getDuration with
    | some d => if d ≠ 0 then importance + min 2 ⌊d / 10⌋ else importance
    | none => importance
  let importance := if 2 < c.participants.length then importance + 1 else importance
  let importance := if 1000 < c.rawText.length then importance + 1 else importance
  min (max importance 1) 10

/-- The fixed keyword vocabulary scanned by `generateTags`. -/
def commonKeywords : List String :=
  ["help", "question", "problem", "solution", "error", "fix", "learn",
   "code", "program", "software", "data", "api", "file", "system",
   "request", "information", "explain", "understand", "create", "build"]

/-- `MemoryProcessor.generateTags`: participants, the start date, and every
keyword occurring in the lower-cased summary; deduplicated keeping first
occurrences. -/
def generateTags (c : Conversation) (summary : String) : List String :=
  let tags := c.participants ++ [isoDate c.startTime]
  let summaryLower := summary.toLower
  let tags := tags ++ commonKeywords.filter (fun kw => strIncludes summaryLower kw)
  dedupBy id tags

/-- `MemoryProcessor.processConversation` with default options: derive
summary, importance and tags, build the `Memory` (fresh id, current time)
and save it. A null conversation is rejected. -/
def processConversation (conv : Option Conversation) (db : DB)
    (now freshId : Nat) : Except String (Memory × DB) :=
  match conv with
  | none => .error "Conversation cannot be null"
  | some c =>
    let summary := generateSummary c 500
    let importance := calculateImportance c
    let tags := generateTags c summary
    let memory := Memory.make freshId (some c.conversationId) summary
      (importance : ℚ) now tags
    .ok (memory, saveMemory memory db)

/-! ## PersonaEvolver (src/src/services/PersonaEvolver.js) -/

/-- The changes object returned by `identifyPersonaChanges`; the
`preferences` member is always the empty object and is omitted. -/
structure Changes where
  description : String
  justification : String
  traits : TraitChanges
  values : ValueChanges
  biography : Option String
deriving Repr, DecidableEq

/-- One step of the tag-count accumulation: JS objects keep keys in
first-insertion order. -/
def bumpTag (counts : List (String × Nat)) (tag : String) : List (String × Nat) :=
  if counts.any (fun p => p.1 = tag) then
    counts.map (fun p => if p.1 = tag then (p.1, p.2 + 1) else p)
  else counts ++ [(tag, 1)]

def tagCounts (memories : List Memory) : List (String × Nat) :=
  memories.foldl (fun acc m => m.tags.foldl bumpTag acc) []

/-- Ordering for `Object.entries(tagCounts).sort((a, b) => b[1] - a[1])`:
count descending, ties keeping first-seen order (stable sort). -/
def countOrder (a b : String × Nat) : Prop := b.2 ≤ a.2

instance : DecidableRel countOrder := fun a b => by
  unfold countOrder; infer_instance

instance : IsTotal (String × Nat) countOrder := ⟨fun a b => Nat.le_total b.2 a.2⟩

instance : IsTrans (String × Nat) countOrder := ⟨fun _ _ _ h1 h2 => h2.trans h1⟩

/-- The three most frequent tags across the memories. -/
def topTags (memories : List Memory) : List String :=
  (((tagCounts memories).insertionSort countOrder).take 3).map Prod.fst

/-- `PersonaEvolver.identifyPersonaChanges`. -/
def identifyPersonaChanges (persona : Persona) (memories : List Memory) :
    Changes :=
  if memories.isEmpty then
    { description := "No changes made due to lack of new experiences"
      justification := "No recent memories to process"
      traits := {}, values := {}, biography := none }
  else
    let highImportanceMemories := memories.filter (fun m => 8 ≤ m.importance)
    let significantExperience := 0 < highImportanceMemories.length
    let sortedTags := topTags memories
    let n := memories.length
    let justification := "Based on " ++ toString n ++ " recent memories"
    let hn := highImportanceMemories.length
    let justification :=
      if 0 < hn then
        justification ++ ", including " ++ toString hn ++ " high-importance experiences"
      else justification
    let traits : TraitChanges :=
      { conscientiousness :=
          if significantExperience ∧ persona.traits.conscientiousness < 9/10 then
            some (min 1 (persona.traits.conscientiousness + 5/100))
          else none
        neuroticism :=
          if ("error" ∈ sortedTags ∨ "problem" ∈ sortedTags) ∧
              persona.traits.neuroticism < 8/10 then
            some (min (8/10) (persona.traits.neuroticism + 3/100))
          else none
        agreeableness :=
          if ("solution" ∈ sortedTags ∨ "help" ∈ sortedTags) ∧
              persona.traits.agreeableness < 95/100 then
            some (min (95/100) (persona.traits.agreeableness + 2/100))
          else none }
    let values : ValueChanges :=
      { helpfulness :=
          if ("solution" ∈ sortedTags ∨ "help" ∈ sortedTags) ∧
              persona.traits.agreeableness < 95/100 then
            some (min 1 (persona.values.helpfulness + 1/100))
          else none }
    let biography :=
      if significantExperience then
        match highImportanceMemories.head? with
        | some m => some (persona.biography ++ " Recently, I " ++ m.summary.toLower)
        | none => none
      else none
    { description := "Persona evolved based on recent experiences"
      justification := justification
      traits := traits, values := values, biography := biography }

/-- `PersonaEvolver.evolveDreamstate` for a non-null persona: snapshot,
compute changes, apply them (the empty trait/value/preference objects are
truthy in JS, so the update calls always run; a null biography is skipped),
save the persona, snapshot again, save a `DreamstateUpdate`. -/
def evolveDreamstate (persona : Persona) (recentMemories : List Memory)
    (db : DB) (now freshId : Nat) : Persona × DreamstateUpdate × DB :=
  let previousState := persona.snapshot
  let changes := identifyPersonaChanges persona recentMemories
  let persona := persona.updateTraits changes.traits now
  let persona := persona.updateValues changes.values now
  let persona := persona.updatePreferences now
  let persona :=
    match changes.biography with
    | some b => if b = "" then persona else persona.updateBiography b now
    | none => persona
  let db := savePersona persona db
  let newState := persona.snapshot
  let update : DreamstateUpdate :=
    { updateId := freshId, personaId := persona.personaId
      description := orElseStr changes.description
        "Persona evolved based on recent experiences"
      justification := orElseStr changes.justification
        "Automatic evolution from dreamstate processing"
      previousState := previousState, newState := newState, timestamp := now }
  (persona, update, saveUpdate update db)

/-! ## AwakeningService (src/src/services/AwakeningService.js) -/

structure MemorySnapshot where
  id : Nat
  summary : String
  importance : ℚ
  whenTs : Nat
  tags : List String
deriving Repr, DecidableEq

structure UpdateSnapshot where
  whenTs : Nat
  description : String
  justification : String
  changes : StateDiff
deriving Repr, DecidableEq

structure ContextPersona where
  id : Nat
  traits : Traits
  values : Values
  preferences : Prefs
  biography : String
deriving Repr, DecidableEq

structure AwakeningContext where
  persona : ContextPersona
  recentMemories : List MemorySnapshot
  importantMemories : List MemorySnapshot
  recentUpdates : List UpdateSnapshot
  awakeningTime : Nat
deriving Repr, DecidableEq

/-- Awakening options after merging defaults (object spread is modelled by
the caller passing the merged record). -/
structure ServiceOptions where
  recentMemoriesLimit : Nat := 5
  importantMemoriesThreshold : ℚ := 8
  importantMemoriesLimit : Nat := 5
  recentUpdatesLimit : Nat := 3
deriving Repr, DecidableEq

def Memory.snapshot (m : Memory) : MemorySnapshot :=
  ⟨m.memoryId, m.summary, m.importance, m.timestamp, m.tags⟩

/-- `AwakeningService.awaken`: ensure a persona, fetch recent and important
memories and recent updates, and assemble the context (may create the
default persona as a side effect). -/
def awakeningServiceAwaken (db : DB) (opts : ServiceOptions)
    (now freshId : Nat) : AwakeningContext × DB :=
  let pdb := ensureExists db now freshId
  let persona := pdb.1
  let db := pdb.2
  let recentMemories := getRecent db.memories opts.recentMemoriesLimit
  let importantMemories :=
    getImportant db.memories opts.importantMemoriesThreshold opts.importantMemoriesLimit
  let recentUpdates := getByPersona db.updates persona.personaId opts.recentUpdatesLimit
  let formattedUpdates := recentUpdates.map (fun u =>
    UpdateSnapshot.mk u.timestamp u.description u.justification u.getDiff)
  (⟨⟨persona.personaId, persona.traits, persona.values, persona.preferences,
      persona.biography⟩,
    recentMemories.map Memory.snapshot,
    importantMemories.map Memory.snapshot,
    formattedUpdates, now⟩, db)

/-- `AwakeningService.searchRelevantMemories`: tag search when tags are
non-empty, otherwise plain recency retrieval; the query text is unused. -/
def searchRelevantMemories (query : String) (tags : List String)
    (limit : Nat) (db : DB) : List Memory :=
  if 0 < tags.length then searchByTags db.memories tags limit
  else getRecent db.memories limit

/-! ## LTMSQL lifecycle controller (src/core/LTMSQL.js) -/

/-- The in-memory controller state: the database plus the `LTMSQL`
instance fields, a fresh-id counter standing in for `uuidv4()`, and the
current clock value read by `new Date()`. -/
structure LTMState where
  db : DB
  persona : Option Persona
  currentConversation : Option Conversation
  awakeningContext : Option AwakeningContext
  isAwake : Bool
  nextId : Nat
  now : Nat
deriving Repr, DecidableEq

/-- `LTMSQL.prototype.endConversation`: with no active conversation, warn
and return null leaving everything unchanged; otherwise stamp the end time,
save, process into a memory (which is saved), clear the current
conversation and return the memory. -/
def endConversationStep (s : LTMState) : LTMState × Option Memory :=
  match s.currentConversation with
  | none => (s, none)
  | some c =>
    let c := c.endConv s.now
    let db := saveConversation c s.db
    match processConversation (some c) db s.now s.nextId with
    | .error _ => (s, none)
    | .ok (memory, db) =>
      ({ s with db := db, currentConversation := none, nextId := s.nextId + 1 },
       some memory)

/-- `LTMSQL.prototype.startConversation`: end any existing conversation
first, then create, store and save a fresh open conversation. -/
def startConversationStep (s : LTMState) (participants : List String)
    (context : String) : LTMState × Conversation :=
  let s := if s.currentConversation.isSome then (endConversationStep s).1 else s
  let conv : Conversation := ⟨s.nextId, s.now, none, participants, "", context, []⟩
  ({ s with
      currentConversation := some conv
      db := saveConversation conv s.db
      nextId := s.nextId + 1 }, conv)

/-- `LTMSQL.prototype.addMessage`: requires an active conversation;
appends the message and saves the conversation. Note the code does not
validate `role` or `content`. -/
def addMessageStep (s : LTMState) (role content : Option String) :
    LTMState × Except String Conversation :=
  match s.currentConversation with
  | none => (s, .error "No active conversation. Call startConversation() first")
  | some c =>
    let c := c.addMessage role content s.now
    ({ s with currentConversation := some c, db := saveConversation c s.db },
     .ok c)

/-- `LTMSQL.prototype.awaken`: if already awake, warn and return the
existing context without touching any state; otherwise assemble the
awakening context, mark awake, and start a new `['user', 'claude']`
conversation. -/
def awakenStep (s : LTMState) (opts : ServiceOptions) :
    LTMState × Option AwakeningContext :=
  if s.isAwake then (s, s.awakeningContext)
  else
    let cdb := awakeningServiceAwaken s.db opts s.now s.nextId
    let ctx := cdb.1
    let s := { s with
      db := cdb.2, awakeningContext := some ctx, isAwake := true
      nextId := s.nextId + 1 }
    let s := (startConversationStep s ["user", "claude"] "").1
    (s, some ctx)

/-- `LTMSQL.prototype.sleep`: if already asleep, warn and return null
unchanged. Otherwise first end any active conversation, fetch the recent
memories (`options.recentMemoriesLimit || 10`), evolve the persona
(throwing if the controller holds no persona), reset the awakening context
and mark asleep. -/
def sleepStep (s : LTMState) (recentMemoriesLimit : Option Nat) :
    LTMState × Except String (Option DreamstateUpdate) :=
  if s.isAwake then
    let s1 := if s.currentConversation.isSome then (endConversationStep s).1 else s
    let limit :=
      match recentMemoriesLimit with
      | some n => if n = 0 then 10 else n
      | none => 10
    let recentMemories := getRecent s1.db.memories limit
    match s1.persona with
    | none => (s1, .error "Persona cannot be null")
    | some p =>
      let pud := evolveDreamstate p recentMemories s1.db s1.now s1.nextId
      ({ s1 with
          db := pud.2.2, persona := some pud.1
          awakeningContext := none, isAwake := false
          nextId := s1.nextId + 1 },
       .ok (some pud.2.1))
  else (s, .ok none)

/-- `LTMSQL.prototype.searchMemories`: delegates to the awakening
service with the option limit (default 5). -/
def searchMemoriesStep (s : LTMState) (query : String) (tags : List String)
    (limit : Nat) : List Memory :=
  searchRelevantMemories query tags limit s.db

/-- The `ltm_record_message` MCP tool handler (src/src/mcp/server.js):
rejects a missing (or empty, both falsy) role or content, requires the
system to be awake, starts a conversation when none is open, then delegates
to `addMessage`. -/
def serverRecordMessage (s : LTMState) (role content : Option String) :
    LTMState × Except String Conversation :=
  if jsFalsyStr role || jsFalsyStr content then
    (s, .error "Both role and content are required")
  else if !s.isAwake then
    (s, .error "System must be awakened first")
  else
    let s := if s.currentConversation.isNone then
        (startConversationStep s ["user", "claude"] "").1
      else s
    addMessageStep s role content

/-! ## Specification-side definitions

These render claim sentences verbatim, to be compared with the embedded
code; they are not translations of the source. -/

/-- Importance formula as the specification states it:
`clamp(5 + (duration known ? min(2, floor(d/10)) : 0) + (participants > 2 ?
1 : 0) + (length > 1000 ? 1 : 0), 1, 10)`. -/
def importanceSpec (c : Conversation) : Int :=
  let durBonus : Int :=
    match c.getDuration with
    | some d => min 2 ⌊d / 10⌋
    | none => 0
  let partBonus : Int := if 2 < c.participants.length then 1 else 0
  let lenBonus : Int := if 1000 < c.rawText.length then 1 else 0
  min (max (5 + durBonus + partBonus + lenBonus) 1) 10

/-- Truncated summary as the claim words it: the prefix of the transcript
up to the last whitespace boundary before position `maxLength`, with an
ellipsis marker appended. -/
def summaryWhitespaceSpec (c : Conversation) (maxLength : Nat) : String :=
  let pre := c.rawText.data.take maxLength
  String.mk (pre.take (lastIndexOfP Char.isWhitespace pre).toNat) ++ "..."

/-- The amended truncation guarantee: the summary is the prefix of the
first `maxLength` transcript characters up to index `k`, with "..."
appended, where `k` is the position of the last space in that window (and
`k = 0` with an empty prefix when the window contains no space at all). -/
def truncationOK (c : Conversation) (maxLength : Nat) : Prop :=
  ∃ k : Nat,
    generateSummary c maxLength =
      String.mk ((c.rawText.data.take maxLength).take k) ++ "..." ∧
    ((k = 0 ∧ ∀ ch ∈ c.rawText.data.take maxLength, ch ≠ ' ') ∨
     ((c.rawText.data.take maxLength).get? k = some ' ' ∧
      ∀ ch ∈ (c.rawText.data.take maxLength).drop (k + 1), ch ≠ ' '))

/-- A short conversation transcript used by the summary witness. -/
def exC5Small : Conversation := ⟨1, 0, none, [], "hello world xyz", "", []⟩

/-- The claimed guarantees of a tag search: pairwise-distinct ids, sorted
by importance descending then timestamp descending, and every result
LIKE-matched by some queried tag (against the serialized tag column). -/
def tagSearchOK (dbm : List Memory) (tags : List String) (limit : Nat) : Prop :=
  (searchByTags dbm tags limit).Pairwise (fun a b => a.memoryId ≠ b.memoryId) ∧
  List.Sorted memOrder (searchByTags dbm tags limit) ∧
  ∀ m ∈ searchByTags dbm tags limit,
    ∃ t ∈ tags, likeMatch (serializeTags m.tags) t = true

/-- The claimed outcome of `sleep()` from an awake state with an open
conversation `c`: afterwards no conversation is open, and
`endConversation` produced a memory for `c` that is already present in the
store handed to the persona-evolution step (`(endConversationStep s).1.db`
is exactly the database `sleepStep` evolves over) and still present after
`sleep()` returns. -/
def sleepClosesOK (s : LTMState) (c : Conversation) : Prop :=
  (sleepStep s none).1.currentConversation = none ∧
  ∃ m : Memory, (endConversationStep s).2 = some m ∧
    m.conversationId = some c.conversationId ∧
    m ∈ (endConversationStep s).1.db.memories ∧
    m ∈ (sleepStep s none).1.db.memories

/-- The claimed outcome of `evolveDreamstate(persona, [], options)`: the
persona's four profile fields survive unchanged, the audit record has
equal snapshots and the code's no-change strings, and the record is
persisted. -/
def evolveEmptyOK (p : Persona) (db : DB) (now freshId : Nat) : Prop :=
  (evolveDreamstate p [] db now freshId).1.traits = p.traits ∧
  (evolveDreamstate p [] db now freshId).1.values = p.values ∧
  (evolveDreamstate p [] db now freshId).1.preferences = p.preferences ∧
  (evolveDreamstate p [] db now freshId).1.biography = p.biography ∧
  (evolveDreamstate p [] db now freshId).2.1.previousState =
    (evolveDreamstate p [] db now freshId).2.1.newState ∧
  (evolveDreamstate p [] db now freshId).2.1.description =
    "No changes made due to lack of new experiences" ∧
  (evolveDreamstate p [] db now freshId).2.1.justification =
    "No recent memories to process" ∧
  (evolveDreamstate p [] db now freshId).2.1 ∈
    (evolveDreamstate p [] db now freshId).2.2.updates

/-! ## Concrete example data -/

def emptyDB : DB := ⟨[], [], [], []⟩

/-- A memory row tagged "decode" only; its serialized tag column
LIKE-matches the query tag "code". -/
def exFalsePositiveDB : DB :=
  ⟨[], [], [⟨1, none, "s", 5, 0, ["decode"]⟩], []⟩

/-- Rows for the tag-search witness: one memory tagged
`{"help", "2024-01-01"}` and one tagged `{"error"}`. -/
def exSearchDB : DB :=
  ⟨[], [],
   [⟨1, none, "asked for help", 6, 10, ["help", "2024-01-01"]⟩,
    ⟨2, none, "hit an error", 7, 20, ["error"]⟩], []⟩

/-- The spec scenario conversation: two messages, 12 minutes, 2
participants, under 1000 raw characters. -/
def exConv12 : Conversation :=
  ⟨1, 0, some 720000, ["user", "claude"],
   "user: hi\nclaude: hello\n", "",
   [⟨some "user", some "hi", 0⟩, ⟨some "claude", some "hello", 60000⟩]⟩

/-- A conversation whose end time precedes its start time (negative
duration). -/
def exNegDurConv : Conversation := ⟨1, 600000000, some 0, [], "x", "", []⟩

/-- A 7-character transcript whose first 5 characters contain a newline
but no space (summarized with `maxLength = 5`). -/
def exC5Conv : Conversation := ⟨1, 0, none, [], "ab\ncdef", "", []⟩

/-- An open conversation used by the controller examples. -/
def exConv9 : Conversation := ⟨7, 0, none, ["user", "claude"], "", "", []⟩

/-- An awake controller state with `exConv9` open and no persona loaded. -/
def exC9State : LTMState :=
  ⟨emptyDB, none, some exConv9, none, true, 8, 1000⟩

/-- An awake controller state holding the default persona and an open
conversation containing one recorded message. -/
def exAwakeConv : Conversation :=
  ⟨100, 0, none, ["user", "claude"], "user: hi\n", "",
   [⟨some "user", some "hi", 0⟩]⟩

def exAwakeState : LTMState :=
  ⟨emptyDB, some (defaultPersona 1 0), some exAwakeConv, none, true, 101, 60000⟩

/-- An asleep controller state. -/
def exAsleepState : LTMState :=
  ⟨emptyDB, some (defaultPersona 1 0), none, none, false, 2, 0⟩

/-- An idle state with no open conversation. -/
def exNoConvState : LTMState :=
  ⟨emptyDB, some (defaultPersona 1 0), none, none, true, 2, 0⟩

/-! ## Helper lemmas -/

theorem clamp_bounds (i : ℚ) :
    1 ≤ min (max i 1) 10 ∧ min (max i 1) 10 ≤ 10 :=
  ⟨le_min (le_max_right i 1) (by norm_num), min_le_right _ _⟩

theorem mem_upsertBy [DecidableEq β] (key : α → β) (x : α) (l : List α) :
    x ∈ upsertBy key x l := by
  unfold upsertBy
  split
  · rename_i h
    obtain ⟨y, hy, hk⟩ := List.any_eq_true.mp h
    exact List.mem_map.mpr ⟨y, hy, by simp [of_decide_eq_true hk]⟩
  · simp

theorem rowToMemory_eq_self (m : Memory) (h1 : 1 ≤ m.importance)
    (h2 : m.importance ≤ 10) : rowToMemory m = m := by
  unfold rowToMemory Memory.make
  rw [max_eq_left h1, min_eq_left h2]

theorem dedupByAux_subset [DecidableEq β] (key : α → β) :
    ∀ (l : List α) (seen : List β), dedupByAux key seen l ⊆ l := by
  intro l
  induction l with
  | nil => intro seen; simp [dedupByAux]
  | cons a l ih =>
    intro seen
    unfold dedupByAux
    split
    · exact (ih seen).trans (List.subset_cons_self a l)
    · exact List.cons_subset_cons a (ih (key a :: seen))

theorem dedupByAux_spec [DecidableEq β] (key : α → β) :
    ∀ (l : List α) (seen : List β),
      (∀ a ∈ dedupByAux key seen l, key a ∉ seen) ∧
      (dedupByAux key seen l).Pairwise (fun a b => key a ≠ key b) := by
  intro l
  induction l with
  | nil => intro seen; simp [dedupByAux]
  | cons a l ih =>
    intro seen
    unfold dedupByAux
    split
    · exact ih seen
    · rename_i hnot
      refine ⟨?_, ?_⟩
      · intro x hx
        rcases List.mem_cons.mp hx with rfl | hx2
        · exact hnot
        · intro hseen
          exact (ih (key a :: seen)).1 x hx2 (List.mem_cons_of_mem _ hseen)
      · refine List.pairwise_cons.mpr ⟨?_, (ih (key a :: seen)).2⟩
        intro b hb hEq
        exact (ih (key a :: seen)).1 b hb (hEq ▸ List.mem_cons_self _ _)

theorem dedupBy_subset [DecidableEq β] (key : α → β) (l : List α) :
    dedupBy key l ⊆ l :=
  dedupByAux_subset key l []

theorem dedupBy_pairwise [DecidableEq β] (key : α → β) (l : List α) :
    (dedupBy key l).Pairwise (fun a b => key a ≠ key b) :=
  (dedupByAux_spec key l []).2

theorem lastIndexOfP_spec (p : Char → Bool) (l : List Char) :
    (lastIndexOfP p l = -1 ∧ ∀ ch ∈ l, p ch = false) ∨
    (∃ k : Nat, lastIndexOfP p l = (k : Int) ∧
      (∃ ch, l.get? k = some ch ∧ p ch = true) ∧
      ∀ ch ∈ l.drop (k + 1), p ch = false) := by
  induction l with
  | nil => left; exact ⟨rfl, by simp⟩
  | cons a l ih =>
    rcases ih with ⟨h1, h2⟩ | ⟨k, hk, ⟨ch, hch, hp⟩, hrest⟩
    · by_cases hpa : p a
      · right
        refine ⟨0, ?_, ⟨a, rfl, hpa⟩, ?_⟩
        · simp [lastIndexOfP, h1, hpa]
        · simpa using h2
      · left
        constructor
        · simp [lastIndexOfP, h1, hpa]
        · intro ch hch
          rcases List.mem_cons.mp hch with rfl | hmem
          · exact Bool.eq_false_iff.mpr hpa
          · exact h2 ch hmem
    · right
      refine ⟨k + 1, ?_, ⟨ch, by simpa using hch, hp⟩, ?_⟩
      · have hk0 : (0 : Int) ≤ (k : Int) := Int.ofNat_nonneg k
        simp [lastIndexOfP, hk, hk0]
      · intro x hx
        exact hrest x (by simpa using hx)

theorem map_id_of_mem {α : Type} {f : α → α} :
    ∀ l : List α, (∀ a ∈ l, f a = a) → l.map f = l := by
  intro l
  induction l with
  | nil => intro _; rfl
  | cons a l ih =>
    intro h
    simp only [List.map_cons, h a (List.mem_cons_self a l),
      ih (fun b hb => h b (List.mem_cons_of_mem a hb))]

theorem savePersona_memories (p : Persona) (db : DB) :
    (savePersona p db).memories = db.memories := rfl

theorem saveUpdate_memories (u : DreamstateUpdate) (db : DB) :
    (saveUpdate u db).memories = db.memories := rfl

theorem evolve_memories (p : Persona) (rm : List Memory) (db : DB)
    (now freshId : Nat) :
    (evolveDreamstate p rm db now freshId).2.2.memories = db.memories := rfl

/-! ## Claim theorems -/

/-- C6: every Memory the system produces or amends keeps
`1 ≤ importance ≤ 10`: the constructor and `updateImportance` clamp any
rational input with `min(max(i, 1), 10)` rather than rejecting it, and
`processConversation` always succeeds on a conversation and yields a
memory within bounds. -/
theorem c6_importance_always_in_range :
    (∀ (mid : Nat) (cid : Option Nat) (summary : String) (i : ℚ) (ts : Nat)
      (tags : List String),
      (Memory.make mid cid summary i ts tags).importance = min (max i 1) 10 ∧
      1 ≤ (Memory.make mid cid summary i ts tags).importance ∧
      (Memory.make mid cid summary i ts tags).importance ≤ 10) ∧
    (∀ (m : Memory) (x : ℚ),
      (m.updateImportance x).importance = min (max x 1) 10 ∧
      1 ≤ (m.updateImportance x).importance ∧
      (m.updateImportance x).importance ≤ 10) ∧
    (∀ (c : Conversation) (db : DB) (now freshId : Nat),
      ∃ m db2, processConversation (some c) db now freshId = .ok (m, db2) ∧
        1 ≤ m.importance ∧ m.importance ≤ 10) := by
  refine ⟨?_, ?_, ?_⟩
  · intro mid cid summary i ts tags
    exact ⟨rfl, (clamp_bounds i).1, (clamp_bounds i).2⟩
  · intro m x
    exact ⟨rfl, (clamp_bounds x).1, (clamp_bounds x).2⟩
  · intro c db now freshId
    exact ⟨_, _, rfl, (clamp_bounds _).1, (clamp_bounds _).2⟩

/-- C4: for every conversation, `calculateImportance` equals the claimed
formula `clamp(5 + (duration known ? min(2, floor(d/10)) : 0) +
(participants > 2 ? 1 : 0) + (raw length > 1000 ? 1 : 0), 1, 10)` (the
code skips the duration bonus when the duration is exactly 0, which adds 0
anyway), and the 12-minute two-participant short-transcript scenario
yields importance 6. -/
theorem c4_importance_formula :
    (∀ c : Conversation, calculateImportance c = importanceSpec c) ∧
    calculateImportance exConv12 = 6 := by
  constructor
  · intro c
    unfold calculateImportance importanceSpec Conversation.getDuration
    rcases c.endTime with _ | e
    · simp only []
      split_ifs <;> ring_nf
    · by_cases h0 : ((e : ℚ) - (c.startTime : ℚ)) / (1000 * 60) = 0
      · simp only [h0, ne_eq, not_true_eq_false, if_false, zero_div,
          Int.floor_zero]
        split_ifs <;> norm_num
      · simp only [h0, ne_eq, not_false_eq_true, if_true]
        split_ifs <;> ring_nf
  · norm_num [calculateImportance, Conversation.getDuration, exConv12]
    decide

/-- C3: a second `awaken()` while already awake returns the existing
awakening context and leaves the whole controller state (including the
open conversation) unchanged. -/
theorem c3_awaken_idempotent (s : LTMState) (opts : ServiceOptions)
    (h : s.isAwake = true) :
    awakenStep s opts = (s, s.awakeningContext) := by
  unfold awakenStep
  rw [h]
  simp

theorem c3_awaken_idempotent_witness :
    exAwakeState.isAwake = true ∧
    awakenStep exAwakeState {} = (exAwakeState, exAwakeState.awakeningContext) :=
  ⟨rfl, c3_awaken_idempotent exAwakeState {} rfl⟩

/-- C7: `endConversation()` with no open conversation and `sleep()` while
already asleep both return null without raising and leave the state
unchanged. -/
theorem c7_forgiving_noops (s t : LTMState) (h1 : s.currentConversation = none)
    (h2 : t.isAwake = false) :
    endConversationStep s = (s, none) ∧ sleepStep t none = (t, .ok none) := by
  constructor
  · unfold endConversationStep
    rw [h1]
  · unfold sleepStep
    rw [h2]
    simp

theorem c7_forgiving_noops_witness :
    (exNoConvState.currentConversation = none ∧ exAsleepState.isAwake = false) ∧
    endConversationStep exNoConvState = (exNoConvState, none) ∧
    sleepStep exAsleepState none = (exAsleepState, .ok none) :=
  ⟨⟨rfl, rfl⟩, c7_forgiving_noops exNoConvState exAsleepState rfl rfl⟩

/-- C8 counterexample: on the default persona with no recent memories, the
persisted audit record carries the strings
"No changes made due to lack of new experiences" and
"No recent memories to process", not the claimed
"no changes made" / "no recent memories to process". -/
theorem c8_empty_evolve_counterexample :
    (evolveDreamstate (defaultPersona 1 0) [] emptyDB 5 2).2.1.description ≠
      "no changes made" ∧
    (evolveDreamstate (defaultPersona 1 0) [] emptyDB 5 2).2.1.justification ≠
      "no recent memories to process" := by
  constructor <;> decide

/-- C8 (amended): `evolveDreamstate(persona, [], options)` leaves traits,
values, preferences and biography unchanged (only `lastUpdated` is
refreshed), persists a DreamstateUpdate whose `previousState` equals its
`newState`, with description "No changes made due to lack of new
experiences" and justification "No recent memories to process". -/
theorem c8_empty_evolve_no_change (p : Persona) (db : DB) (now freshId : Nat) :
    evolveEmptyOK p db now freshId := by
  unfold evolveEmptyOK evolveDreamstate identifyPersonaChanges
  simp only [List.isEmpty_nil, if_true, reduceIte]
  refine ⟨rfl, rfl, rfl, rfl, rfl, rfl, rfl, ?_⟩
  exact mem_upsertBy _ _ _

/-- C2: `sleep()` from an awake state that holds a persona and an open
conversation first ends that conversation: the resulting state has no open
conversation, and the memory processed from the ended conversation is
already in the memory store that the persona-evolution step runs over
(`(endConversationStep s).1.db`), and is still there after `sleep()`
returns. -/
theorem c2_sleep_closes_conversation (s : LTMState) (c : Conversation)
    (hA : s.isAwake = true) (hc : s.currentConversation = some c) :
    sleepClosesOK s c := by
  obtain ⟨db, persona, cc, ctx, awake, nid, nw⟩ := s
  dsimp only at hA hc
  subst hA hc
  rcases persona with _ | p <;>
  · unfold sleepClosesOK sleepStep endConversationStep processConversation
    simp only [Option.isSome_some, reduceIte]
    refine ⟨by trivial, ⟨_, rfl, rfl, ?_, ?_⟩⟩
    · exact mem_upsertBy _ _ _
    · exact mem_upsertBy _ _ _

theorem c2_sleep_closes_conversation_witness :
    (exAwakeState.isAwake = true ∧
     exAwakeState.currentConversation = some exAwakeConv) ∧
    sleepClosesOK exAwakeState exAwakeConv :=
  ⟨⟨rfl, rfl⟩,
   c2_sleep_closes_conversation exAwakeState exAwakeConv rfl rfl⟩

/-- C9 counterexample: `addMessage` invoked with the `content` argument
absent, against a state with an open conversation, returns the updated
conversation without raising anything: one message is appended and the
transcript grows by "user: undefined". -/
theorem c9_missing_argument_counterexample :
    (addMessageStep exC9State (some "user") none).2 =
      .ok (exConv9.addMessage (some "user") none 1000) ∧
    ((addMessageStep exC9State (some "user") none).1.currentConversation.map
      (fun c => c.messages.length)) = some 1 ∧
    ((addMessageStep exC9State (some "user") none).1.currentConversation.map
      Conversation.rawText) = some "user: undefined\n" := by
  refine ⟨rfl, rfl, ?_⟩
  decide

/-- C9 (amended): the controller's `addMessage` performs no argument
validation — whenever a conversation is open, any (possibly absent) role
or content is appended and returned without error; the missing-argument
rejection lives in the MCP adapter, whose `ltm_record_message` handler
errors with "Both role and content are required" before any message is
appended. -/
theorem c9_validation_in_adapter_only :
    (∀ (s : LTMState) (c : Conversation) (role content : Option String),
      s.currentConversation = some c →
      (addMessageStep s role content).2 = .ok (c.addMessage role content s.now) ∧
      (addMessageStep s role content).1.currentConversation =
        some (c.addMessage role content s.now) ∧
      (c.addMessage role content s.now).messages =
        c.messages ++ [⟨role, content, s.now⟩]) ∧
    (∀ (s : LTMState) (role content : Option String),
      role = none ∨ content = none →
      serverRecordMessage s role content =
        (s, .error "Both role and content are required")) := by
  constructor
  · intro s c role content hc
    obtain ⟨db, persona, cc, ctx, awake, nid, nw⟩ := s
    dsimp only at hc
    subst hc
    exact ⟨rfl, rfl, rfl⟩
  · intro s role content h
    rcases h with rfl | rfl
    · rfl
    · unfold serverRecordMessage
      simp [jsFalsyStr]

theorem c9_validation_in_adapter_only_witness :
    exC9State.currentConversation = some exConv9 ∧
    (addMessageStep exC9State (some "user") (some "hello")).2 =
      .ok (exConv9.addMessage (some "user") (some "hello") 1000) ∧
    ((none : Option String) = none ∨ (some "x" : Option String) = none) ∧
    serverRecordMessage exC9State none (some "x") =
      (exC9State, .error "Both role and content are required") :=
  ⟨rfl,
   (c9_validation_in_adapter_only.1 exC9State exConv9 (some "user")
     (some "hello") rfl).1,
   Or.inl rfl,
   c9_validation_in_adapter_only.2 exC9State none (some "x") (Or.inl rfl)⟩

/-- C5 counterexample: a transcript longer than `maxLength = 5` whose
truncation window contains a newline but no space. The code cuts at
`lastIndexOf(' ') = -1` and yields "...", while the claimed rule (back off
to the last whitespace boundary) keeps the prefix "ab" before the
newline. -/
theorem c5_summary_counterexample :
    generateSummary exC5Conv 5 ≠ summaryWhitespaceSpec exC5Conv 5 := by
  decide

/-- C5 (amended): for a transcript longer than `maxLength` the summary is
the prefix up to the last space (U+0020, not any whitespace) strictly
inside the first `maxLength` characters, with "..." appended, and the
empty prefix when that window has no space; a non-empty transcript of at
most `maxLength` characters is returned unmodified; an empty transcript
produces the participants/duration metadata summary. -/
theorem c5_summary_rules :
    (∀ (c : Conversation) (maxLength : Nat),
      maxLength < c.rawText.data.length → truncationOK c maxLength) ∧
    (∀ (c : Conversation) (maxLength : Nat),
      0 < c.rawText.data.length → c.rawText.data.length ≤ maxLength →
      generateSummary c maxLength = c.rawText) ∧
    (∀ (c : Conversation) (maxLength : Nat),
      c.rawText.data.length = 0 →
      generateSummary c maxLength = metadataSummary c) := by
  refine ⟨?_, ?_, ?_⟩
  · intro c maxLength h
    unfold truncationOK generateSummary Conversation.getFullText
    have hpos : 0 < c.rawText.data.length := lt_of_le_of_lt (Nat.zero_le _) h
    have hmin : min maxLength c.rawText.data.length = maxLength := min_eq_left h.le
    have hlen : (c.rawText.data.take maxLength).length < c.rawText.data.length := by
      rw [List.length_take, hmin]
      exact h
    rw [if_pos hpos, hmin, if_pos hlen]
    rcases lastIndexOfP_spec (fun ch => ch == ' ') (c.rawText.data.take maxLength)
      with ⟨h1, h2⟩ | ⟨k, hk, ⟨ch, hch, hp⟩, hrest⟩
    · refine ⟨0, ?_, Or.inl ⟨rfl, ?_⟩⟩
      · rw [h1]
        rfl
      · intro ch hch
        exact ne_of_beq_false (h2 ch hch)
    · refine ⟨k, ?_, Or.inr ⟨?_, ?_⟩⟩
      · rw [hk, Int.toNat_natCast]
      · rwa [beq_iff_eq.mp hp] at hch
      · intro x hx
        exact ne_of_beq_false (hrest x hx)
  · intro c maxLength h0 hle
    unfold generateSummary Conversation.getFullText
    rw [if_pos h0, min_eq_right hle, List.take_length, if_neg (lt_irrefl _)]
  · intro c maxLength h
    unfold generateSummary Conversation.getFullText
    rw [if_neg (by rw [h]; exact lt_irrefl 0)]

theorem clamp_eq_self {i : ℚ} (h1 : 1 ≤ i) (h2 : i ≤ 10) :
    min (max i 1) 10 = i := by
  rw [max_eq_left h1, min_eq_left h2]

theorem calcImp_bounds (c : Conversation)
    (hdur : ∀ e ∈ c.endTime, c.startTime ≤ e) :
    5 ≤ calculateImportance c ∧ calculateImportance c ≤ 9 := by
  unfold calculateImportance Conversation.getDuration
  rcases hE : c.endTime with _ | e
  · simp only []
    split_ifs <;> decide
  · have hse : c.startTime ≤ e := hdur e (by rw [hE]; rfl)
    have hd : (0 : ℚ) ≤ ((e : ℚ) - (c.startTime : ℚ)) / (1000 * 60) := by
      apply div_nonneg
      · have hc : (c.startTime : ℚ) ≤ (e : ℚ) := by exact_mod_cast hse
        linarith
      · norm_num
    have hx0 : (0 : ℤ) ≤ min 2 ⌊((e : ℚ) - (c.startTime : ℚ)) / (1000 * 60) / 10⌋ := by
      refine le_min (by norm_num) (Int.floor_nonneg.mpr ?_)
      exact div_nonneg hd (by norm_num)
    have hx2 : min 2 ⌊((e : ℚ) - (c.startTime : ℚ)) / (1000 * 60) / 10⌋ ≤ 2 :=
      min_le_left _ _
    simp only []
    split_ifs <;>
      (rw [max_eq_left (by linarith), min_eq_left (by linarith)]) <;>
      constructor <;> linarith

theorem c5_summary_rules_witness :
    (5 < exC5Small.rawText.data.length ∧ truncationOK exC5Small 5) ∧
    (0 < exC5Small.rawText.data.length ∧ exC5Small.rawText.data.length ≤ 500 ∧
      generateSummary exC5Small 500 = exC5Small.rawText) ∧
    (exConv9.rawText.data.length = 0 ∧
      generateSummary exConv9 500 = metadataSummary exConv9) :=
  ⟨⟨by decide, c5_summary_rules.1 exC5Small 5 (by decide)⟩,
   ⟨by decide, by decide, c5_summary_rules.2.1 exC5Small 500 (by decide) (by decide)⟩,
   ⟨rfl, c5_summary_rules.2.2 exConv9 500 rfl⟩⟩

/-- C10 counterexample: a conversation whose end time precedes its start
time has a negative duration, so the duration term subtracts and the
processed memory's importance is 1, outside the claimed [5, 9]. -/
theorem c10_range_counterexample :
    (processConversation (some exNegDurConv) emptyDB 0 1).toOption.map
      (fun r => r.1.importance) = some 1 ∧
    ¬ (5 : ℚ) ≤ 1 := by
  have hci : calculateImportance exNegDurConv = 1 := by
    norm_num [calculateImportance, Conversation.getDuration, exNegDurConv]
    decide
  constructor
  · simp only [processConversation, Except.toOption, Option.map, Memory.make, hci]
    norm_num
  · norm_num

/-- C10 (amended): for every conversation whose end time (when present)
does not precede its start time, `processConversation` succeeds and the
produced memory's importance lies in [5, 9] — the heuristic starts at 5
and only adds at most 2 + 1 + 1. -/
theorem c10_processor_importance_range (c : Conversation) (db : DB)
    (now freshId : Nat) (hdur : ∀ e ∈ c.endTime, c.startTime ≤ e) :
    ∃ m db2, processConversation (some c) db now freshId = .ok (m, db2) ∧
      5 ≤ m.importance ∧ m.importance ≤ 9 := by
  obtain ⟨h5, h9⟩ := calcImp_bounds c hdur
  have h1 : (1 : ℚ) ≤ ((calculateImportance c : ℤ) : ℚ) := by
    have : (1 : ℤ) ≤ calculateImportance c := by linarith
    exact_mod_cast this
  have h10 : ((calculateImportance c : ℤ) : ℚ) ≤ 10 := by
    have : calculateImportance c ≤ (10 : ℤ) := by linarith
    exact_mod_cast this
  refine ⟨_, _, rfl, ?_, ?_⟩
  · show (5 : ℚ) ≤ min (max ((calculateImportance c : ℤ) : ℚ) 1) 10
    rw [clamp_eq_self h1 h10]
    exact_mod_cast h5
  · show min (max ((calculateImportance c : ℤ) : ℚ) 1) 10 ≤ 9
    rw [clamp_eq_self h1 h10]
    exact_mod_cast h9

theorem c10_processor_importance_range_witness :
    (∀ e ∈ exConv12.endTime, exConv12.startTime ≤ e) ∧
    (∃ m db2, processConversation (some exConv12) emptyDB 0 1 = .ok (m, db2) ∧
      5 ≤ m.importance ∧ m.importance ≤ 9) :=
  ⟨fun e _ => by simp [exConv12],
   c10_processor_importance_range exConv12 emptyDB 0 1
     (fun e _ => by simp [exConv12])⟩

/-- C1 counterexample: searching for the tag "code" returns the memory
whose only tag is "decode" — the SQL `LIKE '%code%'` matches the
serialized tag column as a substring — so the returned memory contains
none of the queried tags in its tag set. -/
theorem c1_tag_search_counterexample :
    (searchRelevantMemories "q" ["code"] 10 exFalsePositiveDB).length = 1 ∧
    ∀ m ∈ searchRelevantMemories "q" ["code"] 10 exFalsePositiveDB,
      "code" ∉ m.tags := by
  have hlm : likeMatch (serializeTags ["decode"]) "code" = true := by decide
  have hres : searchRelevantMemories "q" ["code"] 10 exFalsePositiveDB =
      [rowToMemory ⟨1, none, "s", 5, 0, ["decode"]⟩] := by
    simp [searchRelevantMemories, searchByTags, tagMatchesFor, exFalsePositiveDB,
      dedupBy, dedupByAux, List.insertionSort, List.orderedInsert, hlm]
  refine ⟨?_, ?_⟩
  · rw [hres]
    rfl
  · rw [hres]
    intro m hm
    simp only [List.mem_singleton] at hm
    subst hm
    simp [rowToMemory, Memory.make]

/-- C1 (amended): `searchMemories` with a non-empty tag list delegates to
`searchByTags`, whose result (over a store whose rows respect the
importance invariant) has pairwise-distinct memory ids, is sorted by
importance descending then timestamp descending, and consists of memories
whose *serialized* tag set is LIKE-matched (case-insensitive substring) by
at least one queried tag — not necessarily containing a queried tag as an
element. -/
theorem c1_tag_search_guarantees (db : DB) (query : String)
    (tags : List String) (limit : Nat) (hT : 0 < tags.length)
    (hB : ∀ m ∈ db.memories, 1 ≤ m.importance ∧ m.importance ≤ 10) :
    searchRelevantMemories query tags limit db =
      searchByTags db.memories tags limit ∧
    tagSearchOK db.memories tags limit := by
  constructor
  · unfold searchRelevantMemories
    rw [if_pos hT]
  · have hTM : ∀ m ∈ tagMatchesFor db.memories tags,
        m ∈ db.memories ∧ ∃ t ∈ tags, likeMatch (serializeTags m.tags) t = true := by
      intro m hm
      obtain ⟨t, ht, hmem⟩ := List.mem_flatMap.mp hm
      obtain ⟨hmdb, hpred⟩ := List.mem_filter.mp hmem
      exact ⟨hmdb, t, ht, hpred⟩
    have hperm : List.Perm
        ((dedupBy Memory.memoryId (tagMatchesFor db.memories tags)).insertionSort
          memOrder)
        (dedupBy Memory.memoryId (tagMatchesFor db.memories tags)) :=
      List.perm_insertionSort memOrder _
    have hpre_mem : ∀ m ∈ ((dedupBy Memory.memoryId
          (tagMatchesFor db.memories tags)).insertionSort memOrder).take limit,
        m ∈ db.memories ∧ ∃ t ∈ tags, likeMatch (serializeTags m.tags) t = true := by
      intro m hm
      have h1 := List.take_subset limit _ hm
      have h2 := hperm.mem_iff.mp h1
      exact hTM m (dedupBy_subset _ _ h2)
    have hres : searchByTags db.memories tags limit =
        ((dedupBy Memory.memoryId
          (tagMatchesFor db.memories tags)).insertionSort memOrder).take limit := by
      show (((dedupBy Memory.memoryId
        (tagMatchesFor db.memories tags)).insertionSort memOrder).take limit).map
          rowToMemory = _
      apply map_id_of_mem
      intro a ha
      exact rowToMemory_eq_self a (hB a (hpre_mem a ha).1).1 (hB a (hpre_mem a ha).1).2
    unfold tagSearchOK
    rw [hres]
    refine ⟨?_, ?_, ?_⟩
    · have hd : (dedupBy Memory.memoryId
          (tagMatchesFor db.memories tags)).Pairwise
          (fun a b => a.memoryId ≠ b.memoryId) := dedupBy_pairwise _ _
      have hs := (hperm.pairwise_iff
        (fun {a b : Memory} (h : a.memoryId ≠ b.memoryId) e => h e.symm)).mpr hd
      exact hs.sublist (List.take_sublist _ _)
    · have hs : List.Sorted memOrder
          ((dedupBy Memory.memoryId
            (tagMatchesFor db.memories tags)).insertionSort memOrder) :=
        List.sorted_insertionSort memOrder _
      exact hs.sublist (List.take_sublist _ _)
    · intro m hm
      exact (hpre_mem m hm).2

theorem c1_tag_search_guarantees_witness :
    (0 < (["help"] : List String).length) ∧
    (∀ m ∈ exSearchDB.memories, 1 ≤ m.importance ∧ m.importance ≤ 10) ∧
    (searchRelevantMemories "q" ["help"] 10 exSearchDB =
      searchByTags exSearchDB.memories ["help"] 10 ∧
    tagSearchOK exSearchDB.memories ["help"] 10) :=
  ⟨by decide,
   by
    intro m hm
    simp only [exSearchDB, List.mem_cons, List.not_mem_nil, or_false] at hm
    rcases hm with rfl | rfl <;> constructor <;> norm_num,
   c1_tag_search_guarantees exSearchDB "q" ["help"] 10 (by decide)
     (by
      intro m hm
      simp only [exSearchDB, List.mem_cons, List.not_mem_nil, or_false] at hm
      rcases hm with rfl | rfl <;> constructor <;> norm_num)⟩

end LTM
